import Mathlib

/-
Verification of the calculator server in
src/examples/mcp-server-calculator/server.py.

The development shallowly embeds the arithmetic tool functions
(add, subtract, multiply, divide, power, sqrt) and the restricted
expression evaluator (calculate, with its nested eval_expr helper and
its parse / evaluate / round / except pipeline) as Lean functions, and
proves the specification claims about them.

Modelling conventions:
- Python floats are modelled by the type Fl: an exact rational together
  with the special values inf, -inf and nan.  Finite float arithmetic is
  modelled exactly over the rationals (binary floating point rounding of
  individual operations is not modelled; no claim depends on it), while
  the special values follow IEEE / Python propagation rules.
- The Python builtin round(x, ndigits) is modelled by round-half-to-even
  on exact rationals (pyRoundQ); round(int, ndigits) returns the int
  unchanged, and round of a non-numeric value raises TypeError, as in
  Python.
- Python exceptions are modelled by the inductive PyExc; a function that
  can raise is modelled in the Except PyExc monad.  The except clause of
  calculate catches exactly the four exception classes listed in the
  source; every other exception propagates to the caller, modelled by an
  Except.error result of calculate itself.
- MAX_PRECISION is read from the environment once at startup with
  default 10; it is modelled as the constant 10 (the default), and every
  tool rounds with it, exactly as the source does.
-/

namespace Calculator

/-- Single apostrophe character as a string (used inside Python message
texts such as the printed form of a class object). -/
def apos : String := String.mk [Char.ofNat 39]

/-! ### Exact rational model of the Python round builtin -/

/-- Floor of a rational as an integer, via flooring integer division of
the numerator by the denominator. -/
def ratFloor (q : ℚ) : Int := q.num.fdiv q.den

/-- Nearest integer to a rational, ties going to the even integer.  This
is the rounding rule of the Python round builtin. -/
def roundHalfToEven (x : ℚ) : Int :=
  let n := ratFloor x
  let f : ℚ := x - (n : ℚ)
  if f < (1 : ℚ) / 2 then n
  else if (1 : ℚ) / 2 < f then n + 1
  else if n % 2 = 0 then n else n + 1

/-- Model of round(q, p) on an exact rational: round half to even at p
decimal digits. -/
def pyRoundQ (q : ℚ) (p : Nat) : ℚ :=
  ((roundHalfToEven (q * (10 : ℚ) ^ p) : ℚ)) / (10 : ℚ) ^ p

/-! ### Model of Python float values -/

/-- Model of a Python float: an exact rational, or one of the special
values positive infinity, negative infinity, not-a-number. -/
inductive Fl where
  | finite (q : ℚ)
  | inf
  | ninf
  | nan
deriving DecidableEq

/-- Negation of a float. -/
def fneg : Fl → Fl
  | .finite q => .finite (-q)
  | .inf => .ninf
  | .ninf => .inf
  | .nan => .nan

/-- Float addition with IEEE special-value propagation. -/
def fadd : Fl → Fl → Fl
  | .nan, _ => .nan
  | _, .nan => .nan
  | .inf, .ninf => .nan
  | .ninf, .inf => .nan
  | .inf, _ => .inf
  | _, .inf => .inf
  | .ninf, _ => .ninf
  | _, .ninf => .ninf
  | .finite a, .finite b => .finite (a + b)

/-- Float subtraction: a - b is a + (-b). -/
def fsub (a b : Fl) : Fl := fadd a (fneg b)

/-- Float multiplication with IEEE special-value propagation. -/
def fmul : Fl → Fl → Fl
  | .nan, _ => .nan
  | _, .nan => .nan
  | .inf, .inf => .inf
  | .inf, .ninf => .ninf
  | .ninf, .inf => .ninf
  | .ninf, .ninf => .inf
  | .inf, .finite q => if q = 0 then .nan else if 0 < q then .inf else .ninf
  | .finite q, .inf => if q = 0 then .nan else if 0 < q then .inf else .ninf
  | .ninf, .finite q => if q = 0 then .nan else if 0 < q then .ninf else .inf
  | .finite q, .ninf => if q = 0 then .nan else if 0 < q then .ninf else .inf
  | .finite a, .finite b => .finite (a * b)

/-- True when the float compares equal to zero under the Python ==
operator (nan == 0 is false, -0.0 == 0 is true). -/
def fIsZero : Fl → Bool
  | .finite q => decide (q = 0)
  | _ => false

/-- True when the float compares strictly below zero under the Python <
operator (nan < 0 is false). -/
def fltZ : Fl → Bool
  | .finite q => decide (q < 0)
  | .ninf => true
  | .inf => false
  | .nan => false

/-- Float division with IEEE special-value propagation.  The
finite-by-finite-zero case is unreachable in the tools (the source
guards it) and in eval_expr (which raises ZeroDivisionError first). -/
def fdiv : Fl → Fl → Fl
  | .nan, _ => .nan
  | _, .nan => .nan
  | .inf, .inf => .nan
  | .inf, .ninf => .nan
  | .ninf, .inf => .nan
  | .ninf, .ninf => .nan
  | .inf, .finite q => if 0 ≤ q then .inf else .ninf
  | .ninf, .finite q => if 0 ≤ q then .ninf else .inf
  | .finite _, .inf => .finite 0
  | .finite _, .ninf => .finite 0
  | .finite a, .finite b => .finite (a / b)

/-- Model of the Python ** operator on floats.  Exact on finite bases
with integer-valued exponents; special values follow Python (anything to
the power 0 is 1, 1 to any power is 1, nan propagates otherwise).  A
finite base with a non-integer exponent yields an irrational real in
general, which is outside the exact rational model; that case is mapped
to nan and is not exercised by any theorem below. -/
def fpow (a b : Fl) : Fl :=
  match b with
  | .finite e =>
    if e = 0 then .finite 1
    else
      match a with
      | .finite q =>
        if e.den = 1 then
          if 0 ≤ e.num then .finite (q ^ e.num.toNat)
          else .finite ((q ^ (-e.num).toNat)⁻¹)
        else .nan
      | .inf => if 0 < e then .inf else .finite 0
      | .ninf =>
        if 0 < e then (if e.den = 1 && e.num % 2 = 1 then .ninf else .inf)
        else .finite 0
      | .nan => .nan
  | .inf =>
    match a with
    | .finite q =>
      if q = 1 ∨ q = -1 then .finite 1
      else if 1 < q ∨ q < -1 then .inf
      else .finite 0
    | .inf => .inf
    | .ninf => .inf
    | .nan => .nan
  | .ninf =>
    match a with
    | .finite q =>
      if q = 1 ∨ q = -1 then .finite 1
      else if 1 < q ∨ q < -1 then .finite 0
      else .inf
    | .inf => .finite 0
    | .ninf => .finite 0
    | .nan => .nan
  | .nan =>
    match a with
    | .finite q => if q = 1 then .finite 1 else .nan
    | _ => .nan

/-- Exact rational model of math.sqrt: componentwise integer square
root.  Exact on perfect squares (the only finite inputs any theorem
below evaluates it at); other finite inputs yield an irrational real in
Python, approximated here. -/
def ratSqrt (q : ℚ) : ℚ := (Int.sqrt q.num : ℚ) / (Nat.sqrt q.den : ℚ)

/-- Model of math.sqrt on floats.  The negative finite and -inf cases
are unreachable: the source guards n < 0 before calling math.sqrt. -/
def fsqrt : Fl → Fl
  | .finite q => .finite (ratSqrt q)
  | .inf => .inf
  | .ninf => .nan
  | .nan => .nan

/-- Model of round(x, p) on a float value: finite values are rounded
half to even at p decimal digits, special values pass through unchanged
(as Python round does when ndigits is given). -/
def pyRoundF : Fl → Nat → Fl
  | .finite q, p => .finite (pyRoundQ q p)
  | x, _ => x

/-! ### The tool functions -/

/-- Result of one tool call: a float, or an error message string.  The
source annotates add, subtract, multiply and power as returning float,
and divide and sqrt as returning a float-or-string union. -/
inductive PyRet where
  | num (x : Fl)
  | str (s : String)
deriving DecidableEq

/-- MAX_PRECISION configuration value: sourced from the environment at
startup with default 10, immutable afterwards.  Modelled at its
default. -/
def MAX_PRECISION : Nat := 10

/-- Tool add: result = a + b, rounded to MAX_PRECISION digits. -/
def add (a b : Fl) : PyRet := .num (pyRoundF (fadd a b) MAX_PRECISION)

/-- Tool subtract: result = a - b, rounded to MAX_PRECISION digits. -/
def subtract (a b : Fl) : PyRet := .num (pyRoundF (fsub a b) MAX_PRECISION)

/-- Tool multiply: result = a * b, rounded to MAX_PRECISION digits. -/
def multiply (a b : Fl) : PyRet := .num (pyRoundF (fmul a b) MAX_PRECISION)

/-- Tool divide: returns an error string when b == 0, otherwise
a / b rounded to MAX_PRECISION digits. -/
def divide (a b : Fl) : PyRet :=
  if fIsZero b then .str "Error: Division by zero"
  else .num (pyRoundF (fdiv a b) MAX_PRECISION)

/-- Tool power: result = base ** exponent, rounded to MAX_PRECISION
digits. -/
def power (base exponent : Fl) : PyRet :=
  .num (pyRoundF (fpow base exponent) MAX_PRECISION)

/-- Tool sqrt: returns an error string when n < 0, otherwise
math.sqrt(n) rounded to MAX_PRECISION digits. -/
def sqrt (n : Fl) : PyRet :=
  if fltZ n then .str "Error: Cannot calculate square root of negative number"
  else .num (pyRoundF (fsqrt n) MAX_PRECISION)

/-! ### Rounding an integer-valued rational is the identity -/

theorem ratFloor_intCast (n : ℤ) : ratFloor (n : ℚ) = n := by
  simp [ratFloor]

theorem roundHalfToEven_intCast (n : ℤ) : roundHalfToEven (n : ℚ) = n := by
  unfold roundHalfToEven
  norm_num [ratFloor_intCast]

theorem pyRoundQ_intCast (n : ℤ) (p : Nat) : pyRoundQ (n : ℚ) p = (n : ℚ) := by
  unfold pyRoundQ
  have hx : (n : ℚ) * (10 : ℚ) ^ p = ((n * (10 : ℤ) ^ p : ℤ) : ℚ) := by
    push_cast
    ring
  rw [hx, roundHalfToEven_intCast]
  push_cast
  have hp : ((10 : ℚ) ^ p) ≠ 0 := by positivity
  field_simp

/-! ### Claims about the tool functions -/

/-- C5: for all float inputs a and b, add(a, b) equals
round(a + b, P), and the analogous identities hold for subtract,
multiply, divide (when b is nonzero) and power, with
P = MAX_PRECISION. -/
theorem tools_are_rounded_raw_ops (a b : Fl) :
    add a b = PyRet.num (pyRoundF (fadd a b) MAX_PRECISION) ∧
    subtract a b = PyRet.num (pyRoundF (fsub a b) MAX_PRECISION) ∧
    multiply a b = PyRet.num (pyRoundF (fmul a b) MAX_PRECISION) ∧
    (fIsZero b = false →
      divide a b = PyRet.num (pyRoundF (fdiv a b) MAX_PRECISION)) ∧
    power a b = PyRet.num (pyRoundF (fpow a b) MAX_PRECISION) := by
  refine ⟨rfl, rfl, rfl, ?_, rfl⟩
  intro h
  simp [divide, h]

/-- Witness for C5 at a = 1, b = 3: the nonzero-divisor hypothesis holds
and the divide identity follows. -/
theorem tools_are_rounded_raw_ops_witness :
    fIsZero (Fl.finite 3) = false ∧
    divide (Fl.finite 1) (Fl.finite 3) =
      PyRet.num (pyRoundF (fdiv (Fl.finite 1) (Fl.finite 3)) MAX_PRECISION) :=
  ⟨by decide,
   (tools_are_rounded_raw_ops (Fl.finite 1) (Fl.finite 3)).2.2.2.1 (by decide)⟩

/-- C6: for every numerator a, divide(a, 0) returns the division-by-zero
error string, never a numeric outcome. -/
theorem divide_by_zero_errs (a : Fl) :
    divide a (Fl.finite 0) = PyRet.str "Error: Division by zero" := rfl

/-- C7: sqrt(n) returns an error outcome for every n < 0, and
sqrt(4) returns the numeric outcome 2.0. -/
theorem sqrt_guard_and_value :
    (∀ n : Fl, fltZ n = true →
      sqrt n = PyRet.str "Error: Cannot calculate square root of negative number") ∧
    sqrt (Fl.finite 4) = PyRet.num (Fl.finite 2) := by
  constructor
  · intro n h
    simp [sqrt, h]
  · have hlt : fltZ (Fl.finite 4) = false := by decide
    have hrs : ratSqrt 4 = ((2 : ℤ) : ℚ) := by
      unfold ratSqrt Int.sqrt
      rw [show ((4 : ℚ)).num = 4 from rfl, show ((4 : ℚ)).den = 1 from rfl,
         show Int.toNat 4 = 4 from rfl]
      norm_num [show Nat.sqrt 4 = 2 from Nat.sqrt_eq 2,
                show Nat.sqrt 1 = 1 from Nat.sqrt_eq 1]
    simp only [sqrt, hlt, Bool.false_eq_true, if_false, fsqrt, pyRoundF,
      MAX_PRECISION, hrs, pyRoundQ_intCast]
    norm_num

/-- Witness for C7 at n = -1: the negativity hypothesis holds and the
error outcome follows. -/
theorem sqrt_guard_and_value_witness :
    fltZ (Fl.finite (-1)) = true ∧
    sqrt (Fl.finite (-1)) =
      PyRet.str "Error: Cannot calculate square root of negative number" :=
  ⟨by decide, sqrt_guard_and_value.1 (Fl.finite (-1)) (by decide)⟩

/-- C10: for every pair of float inputs, including the special values
inf, -inf and nan, the add, subtract and multiply tools return a numeric
result and never an error string: they have no error branch. -/
theorem add_sub_mul_always_numeric (a b : Fl) :
    (∃ q, add a b = PyRet.num q) ∧
    (∀ s, add a b ≠ PyRet.str s) ∧
    (∃ q, subtract a b = PyRet.num q) ∧
    (∀ s, subtract a b ≠ PyRet.str s) ∧
    (∃ q, multiply a b = PyRet.num q) ∧
    (∀ s, multiply a b ≠ PyRet.str s) := by
  refine ⟨⟨_, rfl⟩, ?_, ⟨_, rfl⟩, ?_, ⟨_, rfl⟩, ?_⟩ <;>
    intro s h <;> simp [add, subtract, multiply] at h

/-! ### Python values and exceptions for the calculate tool -/

/-- Model of the Python values a parsed literal expression can carry:
ints, floats, strings, booleans and None.  These are exactly the
constant kinds the grammar subset below can produce. -/
inductive PyVal where
  | vInt (n : Int)
  | vFloat (x : Fl)
  | vStr (s : String)
  | vBool (b : Bool)
  | vNone
deriving DecidableEq

/-- Model of the Python exception classes that the calculate pipeline
can raise.  The first four are exactly the classes named in the except
clause of the source; TypeError is raised by the Python runtime (by the
operator functions and by the round builtin on non-numeric values) and
is not in that clause. -/
inductive PyExc where
  | syntaxError (msg : String)
  | valueError (msg : String)
  | keyError (msg : String)
  | zeroDivisionError (msg : String)
  | typeError (msg : String)
deriving DecidableEq

/-- Python type name of a value, as used in runtime error messages. -/
def typeName : PyVal → String
  | .vInt _ => "int"
  | .vFloat _ => "float"
  | .vStr _ => "str"
  | .vBool _ => "bool"
  | .vNone => "NoneType"

/-! ### The Python expression syntax tree -/

/-- Binary operator kinds of the Python ast module (the ones the
expression grammar subset below can produce). -/
inductive BinOpKind where
  | add
  | sub
  | mult
  | div
  | pow
  | mod
  | floorDiv
  | matMult
  | lshift
  | rshift
  | bitOr
  | bitXor
  | bitAnd
deriving DecidableEq

/-- Unary operator kinds of the Python ast module. -/
inductive UnaryOpKind where
  | usub
  | uadd
  | invert
deriving DecidableEq

/-- Model of the Python expression syntax tree nodes relevant to the
evaluator: the three kinds it handles (Constant, BinOp, UnaryOp) and the
kinds it can receive and must reject (Name, Call, Attribute). -/
inductive Ast where
  | constant (v : PyVal)
  | binOp (op : BinOpKind) (l r : Ast)
  | unaryOp (op : UnaryOpKind) (e : Ast)
  | name (id : String)
  | call (f : Ast) (args : List Ast)
  | attribute (obj : Ast) (attr : String)

/-- Printed form of a class object, as it appears in Python error
messages (KeyError on the operators dict, and the ValueError message of
eval_expr). -/
def mkClassStr (s : String) : String := "<class " ++ apos ++ s ++ apos ++ ">"

/-- Printed class of a binary operator node kind. -/
def binOpClass : BinOpKind → String
  | .add => mkClassStr "ast.Add"
  | .sub => mkClassStr "ast.Sub"
  | .mult => mkClassStr "ast.Mult"
  | .div => mkClassStr "ast.Div"
  | .pow => mkClassStr "ast.Pow"
  | .mod => mkClassStr "ast.Mod"
  | .floorDiv => mkClassStr "ast.FloorDiv"
  | .matMult => mkClassStr "ast.MatMult"
  | .lshift => mkClassStr "ast.LShift"
  | .rshift => mkClassStr "ast.RShift"
  | .bitOr => mkClassStr "ast.BitOr"
  | .bitXor => mkClassStr "ast.BitXor"
  | .bitAnd => mkClassStr "ast.BitAnd"

/-- Printed class of a unary operator node kind. -/
def unaryOpClass : UnaryOpKind → String
  | .usub => mkClassStr "ast.USub"
  | .uadd => mkClassStr "ast.UAdd"
  | .invert => mkClassStr "ast.Invert"

/-- Printed class of a node, for the ValueError message of the
eval_expr else branch. -/
def astClass : Ast → String
  | .constant _ => mkClassStr "ast.Constant"
  | .binOp _ _ _ => mkClassStr "ast.BinOp"
  | .unaryOp _ _ => mkClassStr "ast.UnaryOp"
  | .name _ => mkClassStr "ast.Name"
  | .call _ _ => mkClassStr "ast.Call"
  | .attribute _ _ => mkClassStr "ast.Attribute"

/-- Membership of a binary operator kind in the operators dict of the
source: exactly Add, Sub, Mult, Div and Pow are keys. -/
def binInDict : BinOpKind → Bool
  | .add => true
  | .sub => true
  | .mult => true
  | .div => true
  | .pow => true
  | _ => false

/-- Membership of a unary operator kind in the operators dict of the
source: USub is the only unary key. -/
def uInDict : UnaryOpKind → Bool
  | .usub => true
  | _ => false

/-! ### Semantics of the supported operators on Python values -/

/-- A Python number: an int, or a float.  Booleans coerce to ints as in
Python. -/
inductive NumV where
  | i (n : Int)
  | f (x : Fl)
deriving DecidableEq

/-- Numeric view of a value: ints, bools and floats are numbers,
everything else is not. -/
def asNum : PyVal → Option NumV
  | .vInt n => some (.i n)
  | .vBool b => some (.i (cond b 1 0))
  | .vFloat x => some (.f x)
  | _ => none

/-- Back from a number to a value. -/
def numToVal : NumV → PyVal
  | .i n => .vInt n
  | .f x => .vFloat x

/-- Promote a number to a float. -/
def numToF : NumV → Fl
  | .i n => .finite (n : ℚ)
  | .f x => x

/-- Python == 0 test on a number. -/
def numIsZero : NumV → Bool
  | .i n => decide (n = 0)
  | .f x => fIsZero x

/-- Python < 0 test on a number. -/
def numIsNeg : NumV → Bool
  | .i n => decide (n < 0)
  | .f x => fltZ x

/-- True when both numbers are ints (int + int stays int, and the
division-by-zero message differs for ints and floats). -/
def bothInt : NumV → NumV → Bool
  | .i _, .i _ => true
  | _, _ => false

/-- Addition on numbers: int + int is an int, any float makes the
result a float. -/
def nAdd (a b : NumV) : NumV :=
  match a, b with
  | .i x, .i y => .i (x + y)
  | _, _ => .f (fadd (numToF a) (numToF b))

/-- Subtraction on numbers. -/
def nSub (a b : NumV) : NumV :=
  match a, b with
  | .i x, .i y => .i (x - y)
  | _, _ => .f (fsub (numToF a) (numToF b))

/-- Multiplication on numbers. -/
def nMul (a b : NumV) : NumV :=
  match a, b with
  | .i x, .i y => .i (x * y)
  | _, _ => .f (fmul (numToF a) (numToF b))

/-- TypeError raised by a binary operator function on unsupported
operand types, with the message format the Python runtime uses. -/
def binTypeErr (sym : String) (l r : PyVal) : PyExc :=
  .typeError ("unsupported operand type(s) for " ++ sym ++ ": " ++
    apos ++ typeName l ++ apos ++ " and " ++ apos ++ typeName r ++ apos)

/-- String repetition, for the Python str * int operator. -/
def strRepeat (s : String) (n : Int) : String :=
  String.join (List.replicate n.toNat s)

/-- The Python ** operator on numbers.  int ** nonnegative-int is an
exact int; int ** negative-int is a float; a zero base with a negative
exponent raises ZeroDivisionError; any float operand yields a float. -/
def nPow (a b : NumV) : Except PyExc PyVal :=
  match a, b with
  | .i x, .i y =>
    if 0 ≤ y then .ok (.vInt (x ^ y.toNat))
    else if x = 0 then
      .error (.zeroDivisionError "0.0 cannot be raised to a negative power")
    else .ok (.vFloat (.finite (((x : ℚ) ^ (-y).toNat)⁻¹)))
  | _, _ =>
    if numIsZero a && numIsNeg b then
      .error (.zeroDivisionError "0.0 cannot be raised to a negative power")
    else .ok (.vFloat (fpow (numToF a) (numToF b)))

/-- Model of operators[type(node.op)](left, right): the semantics of a
supported binary operator function from the operator module, applied to
two values, with the exceptions the Python runtime raises.  The
catch-all case (an operator that is not a key of the dict) is
unreachable from eval_expr, which raises KeyError before applying. -/
def applyBin (op : BinOpKind) (l r : PyVal) : Except PyExc PyVal :=
  match op with
  | .add =>
    match l, r with
    | .vStr a, .vStr b => .ok (.vStr (a ++ b))
    | _, _ =>
      match asNum l, asNum r with
      | some a, some b => .ok (numToVal (nAdd a b))
      | _, _ => .error (binTypeErr "+" l r)
  | .sub =>
    match asNum l, asNum r with
    | some a, some b => .ok (numToVal (nSub a b))
    | _, _ => .error (binTypeErr "-" l r)
  | .mult =>
    match l, r with
    | .vStr a, .vInt n => .ok (.vStr (strRepeat a n))
    | .vInt n, .vStr a => .ok (.vStr (strRepeat a n))
    | _, _ =>
      match asNum l, asNum r with
      | some a, some b => .ok (numToVal (nMul a b))
      | _, _ => .error (binTypeErr "*" l r)
  | .div =>
    match asNum l, asNum r with
    | some a, some b =>
      if numIsZero b then
        .error (.zeroDivisionError
          (if bothInt a b then "division by zero" else "float division by zero"))
      else .ok (.vFloat (fdiv (numToF a) (numToF b)))
    | _, _ => .error (binTypeErr "/" l r)
  | .pow =>
    match asNum l, asNum r with
    | some a, some b => nPow a b
    | _, _ => .error (binTypeErr "**" l r)
  | _ => .error (.keyError (binOpClass op))

/-- Model of operators[type(node.op)](operand) for the unary case: the
operator.neg function.  The catch-all case is unreachable from
eval_expr. -/
def applyUnary (op : UnaryOpKind) (v : PyVal) : Except PyExc PyVal :=
  match op with
  | .usub =>
    match asNum v with
    | some (.i n) => .ok (.vInt (-n))
    | some (.f x) => .ok (.vFloat (fneg x))
    | none =>
      .error (.typeError ("bad operand type for unary -: " ++
        apos ++ typeName v ++ apos))
  | _ => .error (.keyError (unaryOpClass op))

/-- Model of the nested eval_expr function of the source: Constant
nodes return their value; BinOp nodes evaluate the left operand, then
the right operand, then look the operator class up in the operators
dict (raising KeyError when it is not a key) and apply it; UnaryOp
nodes do the same with one operand; every other node kind raises
ValueError with an Unsupported-operation message.  Raising is modelled
by Except.error, and propagation of an exception from a recursive call
by the error short-circuiting of the matches. -/
def eval_expr : Ast → Except PyExc PyVal
  | .constant v => .ok v
  | .binOp op l r =>
    match eval_expr l with
    | .error e => .error e
    | .ok left =>
      match eval_expr r with
      | .error e => .error e
      | .ok right =>
        if binInDict op then applyBin op left right
        else .error (.keyError (binOpClass op))
  | .unaryOp op e =>
    match eval_expr e with
    | .error er => .error er
    | .ok operand =>
      if uInDict op then applyUnary op operand
      else .error (.keyError (unaryOpClass op))
  | node => .error (.valueError ("Unsupported operation: " ++ astClass node))

/-! ### Model of ast.parse(expression, mode=eval)

The source delegates parsing to the host Python parser.  The model
below embeds the Python tokenizer and expression grammar for the
fragment the claims exercise: int and float literals, string literals
(without escape sequences), identifiers and keywords, the binary
operators + - * / // % @ ** and the bitwise ones | ^ & << >>, unary
+ - ~, parentheses, call argument lists and attribute access.
Comparison, boolean and lambda forms and the remaining literal syntax
are outside the modelled subset; no claim exercises them.  Keywords
that cannot start an expression (such as import) are rejected exactly
as the Python parser rejects them in eval mode: with a SyntaxError. -/

/-- One Python token of the modelled fragment. -/
inductive Tok where
  | num (v : PyVal)
  | strT (s : String)
  | nameT (s : String)
  | kw (s : String)
  | op (s : String)
deriving DecidableEq

/-- The Python keywords (including the three constant keywords True,
False and None). -/
def keywords : List String :=
  ["False", "None", "True", "and", "as", "assert", "async", "await",
   "break", "class", "continue", "def", "del", "elif", "else", "except",
   "finally", "for", "from", "global", "if", "import", "in", "is",
   "lambda", "nonlocal", "not", "or", "pass", "raise", "return", "try",
   "while", "with", "yield"]

/-- Numeric value of a digit character. -/
def digitVal (c : Char) : Nat := c.toNat - 48

/-- Numeric value of a digit string. -/
def digitsToNat (l : List Char) : Nat :=
  l.foldl (fun a c => 10 * a + digitVal c) 0

/-- Identifier continuation characters. -/
def isIdentChar (c : Char) : Bool := c.isAlphanum || c = Char.ofNat 95

/-- Identifier start characters. -/
def isIdentStart (c : Char) : Bool := c.isAlpha || c = Char.ofNat 95

/-- String quote characters (single or double quote). -/
def isQuote (c : Char) : Bool := c = Char.ofNat 39 || c = Char.ofNat 34

/-- Single-character operator and punctuation tokens. -/
def singleOps : List Char :=
  ['+', '-', '*', '/', '%', '^', '|', '&', '~', '@', '(', ')', ',', '.']

/-- The tokenizer loop.  The fuel argument strictly exceeds the number
of remaining characters, and every step consumes at least one
character, so the fuel case is unreachable on the inputs the theorems
evaluate. -/
def lexLoop : Nat → List Char → Except String (List Tok)
  | 0, _ => .error "lexer out of fuel"
  | _ + 1, [] => .ok []
  | fuel + 1, c :: cs =>
    if c.isWhitespace then lexLoop fuel cs
    else if c.isDigit then
      let intPart := c :: cs.takeWhile (fun d => d.isDigit)
      let rest1 := cs.dropWhile (fun d => d.isDigit)
      match rest1 with
      | '.' :: cs2 =>
        let fracs := cs2.takeWhile (fun d => d.isDigit)
        let rest2 := cs2.dropWhile (fun d => d.isDigit)
        let q : ℚ := (digitsToNat intPart : ℚ) +
          (digitsToNat fracs : ℚ) / (10 : ℚ) ^ fracs.length
        match lexLoop fuel rest2 with
        | .error m => .error m
        | .ok ts => .ok (Tok.num (PyVal.vFloat (Fl.finite q)) :: ts)
      | _ =>
        match lexLoop fuel rest1 with
        | .error m => .error m
        | .ok ts => .ok (Tok.num (PyVal.vInt (digitsToNat intPart : Int)) :: ts)
    else if isIdentStart c then
      let wordCs := c :: cs.takeWhile isIdentChar
      let rest := cs.dropWhile isIdentChar
      let w := String.mk wordCs
      let t := if keywords.contains w then Tok.kw w else Tok.nameT w
      match lexLoop fuel rest with
      | .error m => .error m
      | .ok ts => .ok (t :: ts)
    else if isQuote c then
      let content := cs.takeWhile (fun d => d ≠ c)
      let rest := cs.dropWhile (fun d => d ≠ c)
      match rest with
      | [] => .error "unterminated string literal"
      | _ :: rest2 =>
        match lexLoop fuel rest2 with
        | .error m => .error m
        | .ok ts => .ok (Tok.strT (String.mk content) :: ts)
    else
      match c, cs with
      | '*', '*' :: cs2 =>
        match lexLoop fuel cs2 with
        | .error m => .error m
        | .ok ts => .ok (Tok.op "**" :: ts)
      | '/', '/' :: cs2 =>
        match lexLoop fuel cs2 with
        | .error m => .error m
        | .ok ts => .ok (Tok.op "//" :: ts)
      | '<', '<' :: cs2 =>
        match lexLoop fuel cs2 with
        | .error m => .error m
        | .ok ts => .ok (Tok.op "<<" :: ts)
      | '>', '>' :: cs2 =>
        match lexLoop fuel cs2 with
        | .error m => .error m
        | .ok ts => .ok (Tok.op ">>" :: ts)
      | _, _ =>
        if singleOps.contains c then
          match lexLoop fuel cs with
          | .error m => .error m
          | .ok ts => .ok (Tok.op (String.mk [c]) :: ts)
        else .error "invalid character"

/-- Tokenize a whole expression string. -/
def lexer (s : String) : Except String (List Tok) :=
  lexLoop (s.length * 2 + 8) s.data

/-- Binding strength and node kind of the left-associative binary
operators (the ** operator is right-associative and handled
separately, tighter than these and than unary minus). -/
def binPrec (s : String) : Option (Nat × BinOpKind) :=
  if s = "|" then some (1, .bitOr)
  else if s = "^" then some (2, .bitXor)
  else if s = "&" then some (3, .bitAnd)
  else if s = "<<" then some (4, .lshift)
  else if s = ">>" then some (4, .rshift)
  else if s = "+" then some (5, .add)
  else if s = "-" then some (5, .sub)
  else if s = "*" then some (6, .mult)
  else if s = "/" then some (6, .div)
  else if s = "//" then some (6, .floorDiv)
  else if s = "%" then some (6, .mod)
  else if s = "@" then some (6, .matMult)
  else none

mutual

/-- Parse a full expression: a unary-level operand followed by a
left-associative binary operator chain. -/
def parseExprT : Nat → List Tok → Except String (Ast × List Tok)
  | 0, _ => .error "out of fuel"
  | fuel + 1, toks =>
    match parseUnary fuel toks with
    | .error m => .error m
    | .ok (l, rest) => parseBin fuel 0 l rest

/-- Precedence-climbing loop for the left-associative binary
operators. -/
def parseBin : Nat → Nat → Ast → List Tok → Except String (Ast × List Tok)
  | 0, _, _, _ => .error "out of fuel"
  | fuel + 1, minPrec, lhs, toks =>
    match toks with
    | Tok.op s :: rest =>
      match binPrec s with
      | some (p, k) =>
        if minPrec ≤ p then
          match parseUnary fuel rest with
          | .error m => .error m
          | .ok (rhsStart, rest2) =>
            match parseBin fuel (p + 1) rhsStart rest2 with
            | .error m => .error m
            | .ok (rhs, rest3) =>
              parseBin fuel minPrec (Ast.binOp k lhs rhs) rest3
        else .ok (lhs, toks)
      | none => .ok (lhs, toks)
    | _ => .ok (lhs, toks)

/-- Unary level: + - ~ prefix operators, binding looser than **. -/
def parseUnary : Nat → List Tok → Except String (Ast × List Tok)
  | 0, _ => .error "out of fuel"
  | fuel + 1, toks =>
    match toks with
    | Tok.op "-" :: rest =>
      match parseUnary fuel rest with
      | .error m => .error m
      | .ok (e, r) => .ok (Ast.unaryOp .usub e, r)
    | Tok.op "+" :: rest =>
      match parseUnary fuel rest with
      | .error m => .error m
      | .ok (e, r) => .ok (Ast.unaryOp .uadd e, r)
    | Tok.op "~" :: rest =>
      match parseUnary fuel rest with
      | .error m => .error m
      | .ok (e, r) => .ok (Ast.unaryOp .invert e, r)
    | _ => parsePower fuel toks

/-- Power level: primary followed by an optional right-associative **
whose right operand is again a unary-level expression. -/
def parsePower : Nat → List Tok → Except String (Ast × List Tok)
  | 0, _ => .error "out of fuel"
  | fuel + 1, toks =>
    match parsePrimary fuel toks with
    | .error m => .error m
    | .ok (base, rest) =>
      match rest with
      | Tok.op "**" :: rest2 =>
        match parseUnary fuel rest2 with
        | .error m => .error m
        | .ok (e, r) => .ok (Ast.binOp .pow base e, r)
      | _ => .ok (base, rest)

/-- Primary level: an atom followed by call and attribute trailers. -/
def parsePrimary : Nat → List Tok → Except String (Ast × List Tok)
  | 0, _ => .error "out of fuel"
  | fuel + 1, toks =>
    match parseAtom fuel toks with
    | .error m => .error m
    | .ok (a, rest) => parseTrailers fuel a rest

/-- Call and attribute trailers after a primary. -/
def parseTrailers : Nat → Ast → List Tok → Except String (Ast × List Tok)
  | 0, _, _ => .error "out of fuel"
  | fuel + 1, a, toks =>
    match toks with
    | Tok.op "(" :: Tok.op ")" :: rest => parseTrailers fuel (Ast.call a []) rest
    | Tok.op "(" :: rest =>
      match parseArgs fuel rest with
      | .error m => .error m
      | .ok (args, rest2) => parseTrailers fuel (Ast.call a args) rest2
    | Tok.op "." :: Tok.nameT s :: rest =>
      parseTrailers fuel (Ast.attribute a s) rest
    | Tok.op "." :: _ => .error "invalid syntax"
    | _ => .ok (a, toks)

/-- Comma-separated argument list, consuming the closing
parenthesis. -/
def parseArgs : Nat → List Tok → Except String (List Ast × List Tok)
  | 0, _ => .error "out of fuel"
  | fuel + 1, toks =>
    match parseExprT fuel toks with
    | .error m => .error m
    | .ok (e, rest) =>
      match rest with
      | Tok.op "," :: rest2 =>
        match parseArgs fuel rest2 with
        | .error m => .error m
        | .ok (more, rest3) => .ok (e :: more, rest3)
      | Tok.op ")" :: rest2 => .ok ([e], rest2)
      | _ => .error "invalid syntax"

/-- Atoms: literals, names, the constant keywords, parenthesized
expressions.  Any other keyword cannot start an expression and is a
syntax error, exactly as in Python eval mode. -/
def parseAtom : Nat → List Tok → Except String (Ast × List Tok)
  | 0, _ => .error "out of fuel"
  | fuel + 1, toks =>
    match toks with
    | Tok.num v :: rest => .ok (Ast.constant v, rest)
    | Tok.strT s :: rest => .ok (Ast.constant (PyVal.vStr s), rest)
    | Tok.nameT s :: rest => .ok (Ast.name s, rest)
    | Tok.kw s :: rest =>
      if s = "True" then .ok (Ast.constant (PyVal.vBool true), rest)
      else if s = "False" then .ok (Ast.constant (PyVal.vBool false), rest)
      else if s = "None" then .ok (Ast.constant PyVal.vNone, rest)
      else .error "invalid syntax"
    | Tok.op "(" :: rest =>
      match parseExprT fuel rest with
      | .error m => .error m
      | .ok (e, rest2) =>
        match rest2 with
        | Tok.op ")" :: rest3 => .ok (e, rest3)
        | _ => .error "invalid syntax"
    | _ => .error "invalid syntax"

end

/-- Parser fuel: generous bound in the token count; every recursive
call strictly decreases it and the inputs the theorems evaluate stay
far below it. -/
def parseFuelFor (toks : List Tok) : Nat := 10 * toks.length + 40

/-- Model of ast.parse(expression, mode=eval): tokenize, parse one
expression, and require that the whole input was consumed.  Any failure
is a SyntaxError. -/
def pyParseEval (s : String) : Except PyExc Ast :=
  match lexer s with
  | .error m => .error (.syntaxError m)
  | .ok toks =>
    match parseExprT (parseFuelFor toks) toks with
    | .error m => .error (.syntaxError m)
    | .ok (a, []) => .ok a
    | .ok (_, _ :: _) => .error (.syntaxError "invalid syntax")

/-! ### The calculate tool -/

/-- Model of round(result, MAX_PRECISION) applied to the value
eval_expr produced: ints (and bools, which are ints in Python) pass
through as ints, floats are rounded, and any other value raises
TypeError, which the except clause of calculate does not list.  -/
def pyRoundVal (v : PyVal) (p : Nat) : Except PyExc PyVal :=
  match v with
  | .vInt n => .ok (.vInt n)
  | .vBool b => .ok (.vInt (cond b 1 0))
  | .vFloat x => .ok (.vFloat (pyRoundF x p))
  | v =>
    .error (.typeError ("type " ++ typeName v ++ " doesn" ++ apos ++
      "t define __round__ method"))

/-- The try block of calculate: parse, evaluate, round.  An error value
is an exception raised inside the block. -/
def calcCore (p : Nat) (s : String) : Except PyExc PyVal :=
  match pyParseEval s with
  | .error e => .error e
  | .ok tree =>
    match eval_expr tree with
    | .error e => .error e
    | .ok v => pyRoundVal v p

/-- Membership in the exception tuple of the except clause of the
source: SyntaxError, ValueError, KeyError and ZeroDivisionError are
caught; TypeError is not. -/
def catchable : PyExc → Bool
  | .typeError _ => false
  | _ => true

/-- Python str(e) of a modelled exception. -/
def excStr : PyExc → String
  | .syntaxError m => m
  | .valueError m => m
  | .keyError m => m
  | .zeroDivisionError m => m
  | .typeError m => m

/-- The calculate tool: run the try block; a caught exception becomes
the Error-prefixed string result the source formats; any other
exception propagates out of the function, modelled by Except.error of
calculate itself. -/
def calculate (expression : String) : Except PyExc (PyVal ⊕ String) :=
  match calcCore MAX_PRECISION expression with
  | .ok v => .ok (.inl v)
  | .error e =>
    if catchable e then .ok (.inr ("Error: Invalid expression - " ++ excStr e))
    else .error e

/-! ### The allow-list of permitted nodes -/

/-- True when the tree contains at least one node outside the six
permitted kinds: a Constant, a BinOp whose operator is a key of the
operators dict (Add, Sub, Mult, Div, Pow), or a UnaryOp whose operator
is a key (USub).  Arguments of a Call are not traversed, matching
eval_expr, which raises at the Call node itself. -/
def containsBad : Ast → Bool
  | .constant _ => false
  | .binOp op l r => !binInDict op || (containsBad l || containsBad r)
  | .unaryOp op e => !uInDict op || containsBad e
  | .name _ => true
  | .call _ _ => true
  | .attribute _ _ => true

/-- True when the tree contains a call or attribute-access node. -/
def hasCallOrAttr : Ast → Bool
  | .constant _ => false
  | .binOp _ l r => hasCallOrAttr l || hasCallOrAttr r
  | .unaryOp _ e => hasCallOrAttr e
  | .name _ => false
  | .call _ _ => true
  | .attribute _ _ => true

/-- A tree that contains a node outside the permitted kinds never
evaluates to a value: eval_expr visits every node of the tree unless an
exception cuts evaluation short, so some exception is always raised. -/
theorem eval_expr_bad :
    (t : Ast) → containsBad t = true → ∃ e, eval_expr t = Except.error e
  | Ast.constant v, h => by simp [containsBad] at h
  | Ast.binOp op l r, h => by
    rw [containsBad, Bool.or_eq_true, Bool.or_eq_true, Bool.not_eq_true'] at h
    cases hel : eval_expr l with
    | error e => exact ⟨e, by simp [eval_expr, hel]⟩
    | ok lv =>
      rcases h with hop | hl | hr
      · cases her : eval_expr r with
        | error e => exact ⟨e, by simp [eval_expr, hel, her]⟩
        | ok rv =>
          exact ⟨PyExc.keyError (binOpClass op), by simp [eval_expr, hel, her, hop]⟩
      · obtain ⟨e, he⟩ := eval_expr_bad l hl
        rw [hel] at he
        exact absurd he (by simp)
      · cases her : eval_expr r with
        | error e => exact ⟨e, by simp [eval_expr, hel, her]⟩
        | ok rv =>
          obtain ⟨e, he⟩ := eval_expr_bad r hr
          rw [her] at he
          exact absurd he (by simp)
  | Ast.unaryOp op e, h => by
    rw [containsBad, Bool.or_eq_true, Bool.not_eq_true'] at h
    cases hee : eval_expr e with
    | error er => exact ⟨er, by simp [eval_expr, hee]⟩
    | ok v =>
      rcases h with hop | he
      · exact ⟨PyExc.keyError (unaryOpClass op), by simp [eval_expr, hee, hop]⟩
      · obtain ⟨er, her⟩ := eval_expr_bad e he
        rw [hee] at her
        exact absurd her (by simp)
  | Ast.name s, _ => ⟨_, rfl⟩
  | Ast.call f args, _ => ⟨_, rfl⟩
  | Ast.attribute o a, _ => ⟨_, rfl⟩

/-- A call or attribute node is outside the permitted kinds, and so is
any tree containing one. -/
theorem hasCallOrAttr_containsBad :
    (t : Ast) → hasCallOrAttr t = true → containsBad t = true
  | Ast.constant _, h => by simp [hasCallOrAttr] at h
  | Ast.binOp op l r, h => by
    rw [hasCallOrAttr, Bool.or_eq_true] at h
    rcases h with hl | hr
    · simp [containsBad, hasCallOrAttr_containsBad l hl]
    · simp [containsBad, hasCallOrAttr_containsBad r hr]
  | Ast.unaryOp op e, h => by
    rw [hasCallOrAttr] at h
    simp [containsBad, hasCallOrAttr_containsBad e h]
  | Ast.name _, h => by simp [hasCallOrAttr] at h
  | Ast.call _ _, _ => rfl
  | Ast.attribute _ _, _ => rfl

/-! ### Claims about the calculate tool -/

/-- The expression string consisting of the single-quoted string
literal a, i.e. the three characters quote, a, quote. -/
def strLitA : String := apos ++ "a" ++ apos

/-- The expression string __import__ applied to the single-quoted
string literal os. -/
def importOsCall : String := "__import__(" ++ apos ++ "os" ++ apos ++ ")"

/-- C1 (code bug witness): calculate on the valid expression consisting
of a single string literal parses and evaluates fine, but the final
round call raises TypeError, which the except clause does not list, so
the exception propagates to the caller instead of being surfaced as an
error-string result. -/
theorem calculate_typeerror_escapes :
    calculate strLitA =
      Except.error (PyExc.typeError
        ("type str doesn" ++ apos ++ "t define __round__ method")) := rfl

/-- C2 (counterexample): the caret is bitwise xor in the host grammar,
which is not a key of the operators dict, so calculate of the caret
chain is a caught-KeyError error string, not a numeric outcome at all
(in particular neither 512 nor 64). -/
theorem calculate_caret_not_power :
    calculate "2 ^ 3 ^ 2" =
      Except.ok (Sum.inr ("Error: Invalid expression - " ++
        mkClassStr "ast.BitXor")) := rfl

/-- C2 (amended): calculate of the caret chain returns an error
outcome, because the caret is bitwise xor and unsupported; the
exponentiation operator is spelled with two asterisks, is
right-associative, and the corresponding chain evaluates to 512. -/
theorem calculate_power_star_star :
    calculate "2 ^ 3 ^ 2" =
      Except.ok (Sum.inr ("Error: Invalid expression - " ++
        mkClassStr "ast.BitXor")) ∧
    calculate "2 ** 3 ** 2" = Except.ok (Sum.inl (PyVal.vInt 512)) :=
  ⟨rfl, rfl⟩

/-- C3 (counterexample): calculate("import os") fails in the parsing
stage with a SyntaxError-kind outcome, not with the
unsupported-operation (ValueError) kind the claim asserts for it. -/
theorem calculate_import_os_is_syntax_error :
    calcCore MAX_PRECISION "import os" =
      Except.error (PyExc.syntaxError "invalid syntax") := rfl

/-- C3 (amended): calculate("import os") yields a SyntaxError-kind
outcome (import cannot start an eval-mode expression);
calculate on a call of __import__ yields the unsupported-operation
(ValueError) outcome; and no tree containing a call or attribute-access
node ever evaluates to a value, so such constructs are never
executed. -/
theorem calculate_rejects_code_constructs :
    calcCore MAX_PRECISION "import os" =
      Except.error (PyExc.syntaxError "invalid syntax") ∧
    calcCore MAX_PRECISION importOsCall =
      Except.error (PyExc.valueError ("Unsupported operation: " ++
        mkClassStr "ast.Call")) ∧
    (∀ t : Ast, hasCallOrAttr t = true →
      ∀ v : PyVal, eval_expr t ≠ Except.ok v) := by
  refine ⟨rfl, rfl, ?_⟩
  intro t ht v hv
  obtain ⟨e, he⟩ := eval_expr_bad t (hasCallOrAttr_containsBad t ht)
  rw [he] at hv
  exact Except.noConfusion hv

/-- Witness for C3 at the concrete tree calling the name f with no
arguments: the tree contains a call node and does not evaluate to
None (nor to anything else). -/
theorem calculate_rejects_code_constructs_witness :
    hasCallOrAttr (Ast.call (Ast.name "f") []) = true ∧
    eval_expr (Ast.call (Ast.name "f") []) ≠ Except.ok PyVal.vNone :=
  ⟨rfl, calculate_rejects_code_constructs.2.2 (Ast.call (Ast.name "f") [])
    rfl PyVal.vNone⟩

/-- C4 (counterexample): the expression 1 / 0 % 2 contains the
unsupported Mod operator, yet its outcome kind is ZeroDivisionError,
not the unsupported-operation kind: eval_expr reduces the operands of a
BinOp before looking its operator up, so the division by zero in the
permitted left subtree fires first. -/
theorem calculate_bad_op_after_reduction :
    calcCore MAX_PRECISION "1 / 0 % 2" =
      Except.error (PyExc.zeroDivisionError "division by zero") := rfl

/-- C4 (amended): any expression whose tree contains a node outside the
six permitted kinds is rejected, never producing a numeric result; but
rejection is interleaved with reduction, so the outcome kind is not
always the unsupported-operation kind (a failing permitted subtree can
surface its own error first, as the counterexample shows). -/
theorem calculate_bad_node_never_value :
    ∀ (s : String) (t : Ast), pyParseEval s = Except.ok t →
      containsBad t = true →
      ∀ v : PyVal, calcCore MAX_PRECISION s ≠ Except.ok v := by
  intro s t hp hb v hv
  obtain ⟨e, he⟩ := eval_expr_bad t hb
  simp [calcCore, hp, he] at hv

/-- Witness for C4 at the concrete input 1 % 2: it parses to a Mod
BinOp, which is outside the allow-list, and calculate does not produce
the numeric value 1 (nor any other). -/
theorem calculate_bad_node_never_value_witness :
    pyParseEval "1 % 2" = Except.ok (Ast.binOp BinOpKind.mod
      (Ast.constant (PyVal.vInt 1)) (Ast.constant (PyVal.vInt 2))) ∧
    containsBad (Ast.binOp BinOpKind.mod
      (Ast.constant (PyVal.vInt 1)) (Ast.constant (PyVal.vInt 2))) = true ∧
    calcCore MAX_PRECISION "1 % 2" ≠ Except.ok (PyVal.vInt 1) :=
  ⟨rfl, rfl,
   calculate_bad_node_never_value "1 % 2"
     (Ast.binOp BinOpKind.mod
       (Ast.constant (PyVal.vInt 1)) (Ast.constant (PyVal.vInt 2)))
     rfl rfl (PyVal.vInt 1)⟩

/-- C8: calculate applies standard precedence, multiplication before
addition: 2 + 3 * 4 is the numeric outcome 14. -/
theorem calculate_precedence :
    calculate "2 + 3 * 4" = Except.ok (Sum.inl (PyVal.vInt 14)) := rfl

/-- C9: evaluation is deterministic: calculate is a pure function of
the expression string and the (startup-fixed) precision, so two
invocations on the same string return identical outcomes; the model
has no state a call could mutate. -/
theorem calculate_deterministic (s : String) : calculate s = calculate s := rfl

end Calculator
